import Mathlib

/- Shallow embedding of the historical weather analytics engine
   (src/services/weather_analytics.py) and of the activity
   recommendation engine (src/services/recomendacion.py).

   Modelling choices:
   - Python floats are modelled as exact rationals.
   - Python round(x, 1) is modelled as decimal rounding with ties to
     even (the semantics of the Python built-in round).
   - statistics.stdev computes a floating-point square root; the square
     root function is abstracted as an explicit parameter sqrtf of the
     temperature analyzer (it is applied to the exact sample variance).
   - Python dict records are modelled as structures; the string error
     markers returned by the analyzers are the none case of Option.
   - The two formatted display strings of the temperature summary are
     modelled by the pairs of rounded numbers they interpolate.
   - The verdict strings of the recommendation engine are modelled by a
     structured Verdict value carrying exactly the data interpolated
     into those strings. -/

set_option autoImplicit false

namespace ActiveSky

/-- Round to the nearest integer with ties to even, the behaviour of the
Python built-in round on exact values. -/
def roundHalfEven (q : ℚ) : ℤ :=
  let f := ⌊q⌋
  let r := q - (f : ℚ)
  if r < 1/2 then f
  else if 1/2 < r then f + 1
  else if f % 2 = 0 then f else f + 1

/-- Python round(x, 1): round to one decimal digit. -/
def round1 (q : ℚ) : ℚ := (roundHalfEven (10 * q) : ℚ) / 10

/-- statistics.mean; every call site guards against the empty list. -/
def mean (l : List ℚ) : ℚ := l.sum / (l.length : ℚ)

/-- statistics.median: middle element of the sorted list, or the average
of the two middle elements when the length is even. -/
def median (l : List ℚ) : ℚ :=
  let s := l.mergeSort (fun a b => decide (a ≤ b))
  let n := l.length
  if n % 2 = 1 then s.getD (n / 2) 0
  else (s.getD (n / 2 - 1) 0 + s.getD (n / 2) 0) / 2

/-- Sample variance with Bessel correction; statistics.stdev is its
square root. Call sites guard against lists of fewer than two samples. -/
def sampleVariance (l : List ℚ) : ℚ :=
  ((l.map fun x => (x - mean l) ^ 2).sum) / ((l.length : ℚ) - 1)

/-- Python max over a nonempty list (0 as a junk value on []). -/
def listMax : List ℚ → ℚ
  | [] => 0
  | x :: xs => xs.foldl max x

/-- Python min over a nonempty list (0 as a junk value on []). -/
def listMin : List ℚ → ℚ
  | [] => 0
  | x :: xs => xs.foldl min x

/-- One year's raw parameter maps, as supplied by the NASA POWER client:
each metric channel is a date-keyed map of nullable values, modelled as
an association list. An absent channel is the empty list. -/
structure YearData where
  t2m_min : List (String × Option ℚ)
  t2m_max : List (String × Option ℚ)
  ws2m : List (String × Option ℚ)
  prectotcorr : List (String × Option ℚ)
  cloud_amt : List (String × Option ℚ)
  allsky_uv : List (String × Option ℚ)
deriving DecidableEq

/-- year_data.get(channel, \x7b\x7d).get(date_key): some v only when the key
is present and its value is not None. -/
def channelAt (ch : List (String × Option ℚ)) (k : String) : Option ℚ :=
  match ch.lookup k with
  | some (some v) => some v
  | _ => none

/-- The extraction loop of analyze_weather_data for one channel: iterate
over the date keys of each year's T2M_MIN map and collect the channel's
non-null values in order. -/
def collectChannel (sel : YearData → List (String × Option ℚ))
    (results : List YearData) : List ℚ :=
  results.flatMap fun yd =>
    (yd.t2m_min.map Prod.fst).filterMap fun k => channelAt (sel yd) k

/-- One side (min or max) of the temperature summary. -/
structure TempSide where
  average : ℚ
  median : ℚ
  lowest : ℚ
  highest : ℚ
  std_dev : ℚ
deriving DecidableEq

/-- Temperature summary record of analyze_temperature. The two display
strings are modelled by the pairs of rounded values they interpolate. -/
structure TempStats where
  min : TempSide
  max : TempSide
  range_pair : ℚ × ℚ
  typical_range_pair : ℚ × ℚ
deriving DecidableEq

/-- The reported std_dev field: round(statistics.stdev(l), 1) when more
than one sample exists, 0 otherwise. -/
def stdDevField (sqrtf : ℚ → ℚ) (l : List ℚ) : ℚ :=
  if 1 < l.length then round1 (sqrtf (sampleVariance l)) else 0

/-- analyze_temperature: error marker (none) when either sequence is
empty, otherwise the full summary. -/
def analyze_temperature (sqrtf : ℚ → ℚ) (min_values max_values : List ℚ) :
    Option TempStats :=
  if min_values.isEmpty || max_values.isEmpty then none
  else some {
    min := {
      average := round1 (mean min_values)
      median := round1 (median min_values)
      lowest := round1 (listMin min_values)
      highest := round1 (listMax min_values)
      std_dev := stdDevField sqrtf min_values }
    max := {
      average := round1 (mean max_values)
      median := round1 (median max_values)
      lowest := round1 (listMin max_values)
      highest := round1 (listMax max_values)
      std_dev := stdDevField sqrtf max_values }
    range_pair := (round1 (listMin min_values), round1 (listMax max_values))
    typical_range_pair := (round1 (mean min_values), round1 (mean max_values)) }

/-- One intensity bucket: count of rainy days in the band and the
percentage of rainy days it represents. -/
structure Bucket where
  count : ℕ
  percentage : ℚ
deriving DecidableEq

/-- The four-band intensity distribution of
classify_precipitation_intensity. -/
structure IntensityDist where
  drizzle : Bucket
  light : Bucket
  moderate : Bucket
  heavy : Bucket
deriving DecidableEq

/-- classify_precipitation_intensity: empty map (none) when there are no
rainy days, otherwise count and percentage-of-rainy-days per band. -/
def classify_precipitation_intensity (rainy_days : List ℚ) :
    Option IntensityDist :=
  if rainy_days.isEmpty then none
  else
    let drizzle := rainy_days.countP fun v => decide ((0.1 : ℚ) < v ∧ v < 2)
    let light := rainy_days.countP fun v => decide ((2 : ℚ) ≤ v ∧ v < 10)
    let moderate := rainy_days.countP fun v => decide ((10 : ℚ) ≤ v ∧ v < 30)
    let heavy := rainy_days.countP fun v => decide ((30 : ℚ) ≤ v)
    let total := rainy_days.length
    some {
      drizzle := ⟨drizzle, round1 (((drizzle : ℚ) / (total : ℚ)) * 100)⟩
      light := ⟨light, round1 (((light : ℚ) / (total : ℚ)) * 100)⟩
      moderate := ⟨moderate, round1 (((moderate : ℚ) / (total : ℚ)) * 100)⟩
      heavy := ⟨heavy, round1 (((heavy : ℚ) / (total : ℚ)) * 100)⟩ }

/-- get_rain_recommendation: tiered message keyed on the rain
probability, escalated when the mean rainy-day amount exceeds 20 mm. -/
def get_rain_recommendation (probability : ℚ) (avg_mm : ℚ) : String :=
  if probability < 20 then "Muy baja probabilidad de lluvia. Condiciones ideales."
  else if probability < 40 then "Baja probabilidad de lluvia. Probablemente seguro."
  else if probability < 60 then "Probabilidad moderada de lluvia. Considera llevar protección."
  else if probability < 80 then "Alta probabilidad de lluvia. Planifica con precaución."
  else if avg_mm > 20 then "Muy alta probabilidad de lluvia intensa. No recomendado."
  else "Muy alta probabilidad de lluvia. Lleva equipo impermeable."

/-- Precipitation summary record of analyze_precipitation. -/
structure PrecipStats where
  probability_of_rain : ℚ
  rainy_days : ℕ
  total_days_analyzed : ℕ
  average_when_rained : ℚ
  max_recorded : ℚ
  median_precipitation : ℚ
  intensity_distribution : Option IntensityDist
  recommendation : String
deriving DecidableEq

/-- analyze_precipitation: error marker (none) on the empty sequence,
otherwise rain probability, rainy-day statistics and the intensity
distribution over the rainy-day subsequence. -/
def analyze_precipitation (values : List ℚ) : Option PrecipStats :=
  if values.isEmpty then none
  else
    let rainy := values.filter fun v => decide ((0.1 : ℚ) < v)
    let total_days := values.length
    let rainy_days_count := rainy.length
    let rain_probability :=
      if 0 < total_days
      then round1 (((rainy_days_count : ℚ) / (total_days : ℚ)) * 100) else 0
    let avg_when_rained := if rainy.isEmpty then 0 else round1 (mean rainy)
    some {
      probability_of_rain := rain_probability
      rainy_days := rainy_days_count
      total_days_analyzed := total_days
      average_when_rained := avg_when_rained
      max_recorded := if values.isEmpty then 0 else round1 (listMax values)
      median_precipitation := round1 (median values)
      intensity_distribution := classify_precipitation_intensity rainy
      recommendation := get_rain_recommendation rain_probability avg_when_rained }

/-- Wind summary record of analyze_wind. -/
structure WindStats where
  average_speed : ℚ
  max_speed : ℚ
  median_speed : ℚ
  classification : String
  max_classification : String
  recommendation : String
deriving DecidableEq

/-- classify_wind_speed: five bands, lower-inclusive. -/
def classify_wind_speed (speed : ℚ) : String :=
  if speed < 2 then "Calma"
  else if speed < 5 then "Brisa ligera"
  else if speed < 10 then "Viento moderado"
  else if speed < 15 then "Viento fuerte"
  else "Viento muy fuerte"

/-- get_wind_recommendation: keyed on the peak speed, falling back to
the mean. -/
def get_wind_recommendation (avg : ℚ) (max_wind : ℚ) : String :=
  if max_wind > 15 then "Vientos muy fuertes registrados. Precaución para actividades al aire libre."
  else if max_wind > 10 then "Vientos fuertes posibles. Considera actividades protegidas."
  else if avg < 5 then "Vientos generalmente tranquilos. Buenas condiciones."
  else "Vientos moderados. Condiciones aceptables."

/-- analyze_wind: error marker (none) on the empty sequence. The
classifications use the unrounded mean and peak. -/
def analyze_wind (values : List ℚ) : Option WindStats :=
  if values.isEmpty then none
  else some {
    average_speed := round1 (mean values)
    max_speed := round1 (listMax values)
    median_speed := round1 (median values)
    classification := classify_wind_speed (mean values)
    max_classification := classify_wind_speed (listMax values)
    recommendation := get_wind_recommendation (mean values) (listMax values) }

/-- Cloud summary record of analyze_clouds. -/
structure CloudStats where
  average_coverage : ℚ
  median_coverage : ℚ
  min_coverage : ℚ
  max_coverage : ℚ
  classification : String
  sunny_days : ℕ
  cloudy_days : ℕ
deriving DecidableEq

/-- classify_cloud_coverage: four bands, lower-inclusive. -/
def classify_cloud_coverage (coverage : ℚ) : String :=
  if coverage < 25 then "Despejado"
  else if coverage < 50 then "Parcialmente nublado"
  else if coverage < 75 then "Nublado"
  else "Muy nublado"

/-- analyze_clouds: error marker (none) on the empty sequence. -/
def analyze_clouds (values : List ℚ) : Option CloudStats :=
  if values.isEmpty then none
  else some {
    average_coverage := round1 (mean values)
    median_coverage := round1 (median values)
    min_coverage := round1 (listMin values)
    max_coverage := round1 (listMax values)
    classification := classify_cloud_coverage (mean values)
    sunny_days := values.countP fun v => decide (v < (25 : ℚ))
    cloudy_days := values.countP fun v => decide ((75 : ℚ) < v) }

/-- UV summary record of analyze_uv. -/
structure UvStats where
  average_index : ℚ
  max_index : ℚ
  median_index : ℚ
  risk_level : String
  max_risk_level : String
  recommendation : String
deriving DecidableEq

/-- classify_uv_risk: five bands, lower-inclusive. -/
def classify_uv_risk (uv_index : ℚ) : String :=
  if uv_index < 3 then "Bajo"
  else if uv_index < 6 then "Moderado"
  else if uv_index < 8 then "Alto"
  else if uv_index < 11 then "Muy alto"
  else "Extremo"

/-- get_uv_recommendation: keyed on the peak UV index. Note that it has
only four branches: every index of 8 or more receives the final
message. -/
def get_uv_recommendation (max_uv : ℚ) : String :=
  if max_uv < 3 then "Protección UV mínima requerida."
  else if max_uv < 6 then "Usa protector solar. Busca sombra al mediodía."
  else if max_uv < 8 then "Protección necesaria. Protector solar, sombrero y lentes."
  else "Protección extra necesaria. Evita exposición prolongada."

/-- analyze_uv: error marker (none) on the empty sequence. The
recommendation is keyed on the unrounded peak value. -/
def analyze_uv (values : List ℚ) : Option UvStats :=
  if values.isEmpty then none
  else some {
    average_index := round1 (mean values)
    max_index := round1 (listMax values)
    median_index := round1 (median values)
    risk_level := classify_uv_risk (mean values)
    max_risk_level := classify_uv_risk (listMax values)
    recommendation := get_uv_recommendation (listMax values) }

/-- The aggregate analytics record assembled by analyze_weather_data:
the five metric summaries (each possibly its own error marker) plus the
count of years analyzed. -/
structure Analytics where
  temperature : Option TempStats
  precipitation : Option PrecipStats
  wind : Option WindStats
  clouds : Option CloudStats
  uv : Option UvStats
  data_points : ℕ
  years_analyzed : ℕ
deriving DecidableEq

/-- analyze_weather_data: the top-level error marker (none) on the empty
raw sample list, otherwise the aggregate record obtained by extracting
each channel's sample sequence and dispatching to the per-metric
analyzers. -/
def analyze_weather_data (sqrtf : ℚ → ℚ) (results : List YearData) :
    Option Analytics :=
  if results.isEmpty then none
  else some {
    temperature := analyze_temperature sqrtf
      (collectChannel YearData.t2m_min results)
      (collectChannel YearData.t2m_max results)
    precipitation := analyze_precipitation (collectChannel YearData.prectotcorr results)
    wind := analyze_wind (collectChannel YearData.ws2m results)
    clouds := analyze_clouds (collectChannel YearData.cloud_amt results)
    uv := analyze_uv (collectChannel YearData.allsky_uv results)
    data_points := results.length
    years_analyzed := results.length }

/-- The rangos table of recomendacion.py: per-activity inclusive
[min, max] ranges, one per decision dimension, in the literal insertion
order of the Python dicts. -/
def rangos : List (String × List (String × ℚ × ℚ)) :=
  [("Running",
    [("temperatura", 10, 22), ("viento", 0, 5), ("uv", 0, 6),
     ("precipitacion_probabilidad", 0, 30), ("nubes", 0, 70)]),
   ("Ciclismo",
    [("temperatura", 12, 26), ("viento", 0, 7), ("uv", 0, 7),
     ("precipitacion_probabilidad", 0, 40), ("nubes", 0, 80)]),
   ("Senderismo",
    [("temperatura", 8, 24), ("viento", 0, 6), ("uv", 0, 6),
     ("precipitacion_probabilidad", 0, 30), ("nubes", 0, 80)]),
   ("Camping",
    [("temperatura", 10, 22), ("viento", 0, 4), ("uv", 0, 7),
     ("precipitacion_probabilidad", 0, 20), ("nubes", 0, 90)]),
   ("Picnic",
    [("temperatura", 15, 28), ("viento", 0, 4), ("uv", 0, 6),
     ("precipitacion_probabilidad", 0, 10), ("nubes", 10, 70)]),
   ("Playa",
    [("temperatura", 20, 32), ("viento", 0, 6), ("uv", 3, 8),
     ("precipitacion_probabilidad", 0, 10), ("nubes", 10, 50)])]

/-- The normalized scalar dict built by extraer_datos_desde_analytics:
it always carries all five decision dimensions. -/
structure Datos where
  temperatura : ℚ
  viento : ℚ
  uv : ℚ
  precipitacion_probabilidad : ℚ
  nubes : ℚ
deriving DecidableEq

/-- extraer_datos_desde_analytics: the empty dict (none) when the
analytics record is the error marker, otherwise the five derived
scalars, each Python .get chain defaulting to 0 when the corresponding
metric summary is its own error marker. -/
def extraer_datos_desde_analytics : Option Analytics → Option Datos
  | none => none
  | some a =>
    let temp_min_avg := match a.temperature with
      | some t => t.min.average
      | none => 0
    let temp_max_avg := match a.temperature with
      | some t => t.max.average
      | none => 0
    some {
      temperatura := round1 ((temp_min_avg + temp_max_avg) / 2)
      viento := match a.wind with
        | some w => w.average_speed
        | none => 0
      uv := match a.uv with
        | some u => u.average_index
        | none => 0
      precipitacion_probabilidad := match a.precipitation with
        | some p => p.probability_of_rain
        | none => 0
      nubes := match a.clouds with
        | some c => c.average_coverage
        | none => 0 }

/-- datos.get(parametro, None) over the five keys of the derived dict. -/
def datosGet (d : Datos) (p : String) : Option ℚ :=
  if p = "temperatura" then some d.temperatura
  else if p = "viento" then some d.viento
  else if p = "uv" then some d.uv
  else if p = "precipitacion_probabilidad" then some d.precipitacion_probabilidad
  else if p = "nubes" then some d.nubes
  else none

/-- Direction of an out-of-range violation message. -/
inductive Dir where
  | low
  | high
deriving DecidableEq

/-- One itemized violation: the message "\x7bparametro\x7d muy bajo/alto
(\x7bvalor\x7d) para \x7bactividad\x7d", modelled by its interpolated data. -/
structure Violation where
  parametro : String
  valor : ℚ
  dir : Dir
deriving DecidableEq

/-- The return string of evaluar_actividad_con_analytics, modelled by
the structured data each of the four shapes interpolates. -/
inductive Verdict where
  | notDefined (actividad : String)
  | insufficient
  | recommended (actividad : String)
  | notRecommended (actividad : String) (violations : List Violation)
deriving DecidableEq

/-- The dimension loop of evaluar_actividad_con_analytics: for each
profile entry, look the dimension up in the derived dict (skipping an
absent key) and record a violation when the value is outside the
inclusive range. -/
def checkReglas (datos : Datos) (reglas : List (String × ℚ × ℚ)) :
    List Violation :=
  reglas.filterMap fun r =>
    match datosGet datos r.1 with
    | none => none
    | some v =>
      if v < r.2.1 then some ⟨r.1, v, Dir.low⟩
      else if r.2.2 < v then some ⟨r.1, v, Dir.high⟩
      else none

/-- evaluar_actividad_con_analytics: undefined-activity marker first,
then the insufficient-data marker when the derived dict is empty, then
the verdict with itemized violations. -/
def evaluar_actividad_con_analytics (analytics_result : Option Analytics)
    (actividad : String) : Verdict :=
  match rangos.lookup actividad with
  | none => Verdict.notDefined actividad
  | some reglas =>
    match extraer_datos_desde_analytics analytics_result with
    | none => Verdict.insufficient
    | some datos =>
      let recomendaciones := checkReglas datos reglas
      if recomendaciones.isEmpty then Verdict.recommended actividad
      else Verdict.notRecommended actividad recomendaciones

/-- A concrete square-root stand-in for witnesses where the standard
deviation branch is never taken. -/
def sqrt0 : ℚ → ℚ := fun _ => 0

/-- A concrete year whose T2M_MIN date key carries a null value, so the
temperature-min sequence comes out empty while every other channel has
one sample. -/
def exYd1 : YearData :=
  { t2m_min := [("d1", none)]
    t2m_max := [("d1", some 25)]
    ws2m := [("d1", some 3)]
    prectotcorr := [("d1", some 0)]
    cloud_amt := [("d1", some 30)]
    allsky_uv := [("d1", some 5)] }

/-- A concrete year with the wind channel absent and every other channel
carrying one sample. -/
def exYd3 : YearData :=
  { t2m_min := [("d1", some 10)]
    t2m_max := [("d1", some 20)]
    ws2m := []
    prectotcorr := [("d1", some 1)]
    cloud_amt := [("d1", some 50)]
    allsky_uv := [("d1", some 5)] }

/-- A concrete year whose single temperature samples give min average
10.1 and max average 10.2. -/
def exYd9 : YearData :=
  { t2m_min := [("d1", some (101/10))]
    t2m_max := [("d1", some (102/10))]
    ws2m := []
    prectotcorr := []
    cloud_amt := []
    allsky_uv := [] }

/-- A concrete aggregate record whose every metric summary is its own
insufficient-data marker. -/
def exA1 : Analytics :=
  { temperature := none, precipitation := none, wind := none,
    clouds := none, uv := none, data_points := 0, years_analyzed := 0 }

/-- A concrete temperature summary with min average 10 and max
average 20. -/
def exT9w : TempSide × TempSide :=
  (⟨10, 10, 10, 10, 0⟩, ⟨20, 20, 20, 20, 0⟩)

/-- A concrete aggregate record carrying only the temperature summary
built from exT9w. -/
def exA9w : Analytics :=
  { temperature := some ⟨exT9w.1, exT9w.2, (10, 20), (10, 20)⟩
    precipitation := none, wind := none, clouds := none, uv := none,
    data_points := 1, years_analyzed := 1 }

lemma analyze_wind_eq_none_iff (l : List ℚ) :
    analyze_wind l = none ↔ l = [] := by
  cases l <;> simp [analyze_wind]

lemma analyze_precipitation_eq_none_iff (l : List ℚ) :
    analyze_precipitation l = none ↔ l = [] := by
  cases l <;> simp [analyze_precipitation]

lemma analyze_clouds_eq_none_iff (l : List ℚ) :
    analyze_clouds l = none ↔ l = [] := by
  cases l <;> simp [analyze_clouds]

lemma analyze_uv_eq_none_iff (l : List ℚ) :
    analyze_uv l = none ↔ l = [] := by
  cases l <;> simp [analyze_uv]

lemma analyze_temperature_eq_none_iff (sqrtf : ℚ → ℚ) (mins maxs : List ℚ) :
    analyze_temperature sqrtf mins maxs = none ↔ (mins = [] ∨ maxs = []) := by
  cases mins <;> cases maxs <;> simp [analyze_temperature]

/-- Each sample above the trace threshold falls in exactly one of the
four intensity bands. -/
lemma bucket_split (x : ℚ) (hx : (0.1 : ℚ) < x) :
    ((if decide ((0.1 : ℚ) < x ∧ x < 2) then 1 else 0) +
     (if decide ((2 : ℚ) ≤ x ∧ x < 10) then 1 else 0) +
     (if decide ((10 : ℚ) ≤ x ∧ x < 30) then 1 else 0) +
     (if decide ((30 : ℚ) ≤ x) then 1 else 0) : ℕ) = 1 := by
  rcases lt_or_le x 2 with h2 | h2
  · have d2 : ¬(2 : ℚ) ≤ x := by linarith
    have d10 : ¬(10 : ℚ) ≤ x := by linarith
    have d30 : ¬(30 : ℚ) ≤ x := by linarith
    simp [hx, h2, d2, d10, d30]
  · rcases lt_or_le x 10 with h10 | h10
    · have b2 : ¬x < 2 := by linarith
      have d10 : ¬(10 : ℚ) ≤ x := by linarith
      have d30 : ¬(30 : ℚ) ≤ x := by linarith
      simp [b2, h2, h10, d10, d30]
    · rcases lt_or_le x 30 with h30 | h30
      · have b2 : ¬x < 2 := by linarith
        have b10 : ¬x < 10 := by linarith
        have d30 : ¬(30 : ℚ) ≤ x := by linarith
        simp [b2, b10, h10, h30, d30]
      · have b2 : ¬x < 2 := by linarith
        have b10 : ¬x < 10 := by linarith
        have b30 : ¬x < 30 := by linarith
        simp [b2, b10, b30, h30]

/-- Over a list of samples above the trace threshold, the four band
counts sum to the length. -/
lemma countP_partition (l : List ℚ) (h : ∀ v ∈ l, (0.1 : ℚ) < v) :
    (l.countP fun v => decide ((0.1 : ℚ) < v ∧ v < 2)) +
    (l.countP fun v => decide ((2 : ℚ) ≤ v ∧ v < 10)) +
    (l.countP fun v => decide ((10 : ℚ) ≤ v ∧ v < 30)) +
    (l.countP fun v => decide ((30 : ℚ) ≤ v)) = l.length := by
  induction l with
  | nil => simp
  | cons x xs ih =>
    have hx := h x (by simp)
    have hxs := ih fun v hv => h v (by simp [hv])
    have hsplit := bucket_split x hx
    simp only [List.countP_cons, List.length_cons]
    omega

/-- C2: For the empty raw sample list, the aggregate analyzer returns
the top-level error-marker record (none); since the analyzer is a total
function whose empty case short-circuits before any per-metric analyzer
is applied, no exception can arise. -/
theorem C2_empty_input_error_marker (sqrtf : ℚ → ℚ) :
    analyze_weather_data sqrtf [] = none := rfl

/-- C10: For every analytics record, including the top-level error
marker none, and every activity name absent from rangos, the evaluation
returns the not-defined marker and never the insufficient-data
marker. -/
theorem C10_undefined_activity_precedence (analytics_result : Option Analytics)
    (actividad : String) (h : rangos.lookup actividad = none) :
    evaluar_actividad_con_analytics analytics_result actividad =
      Verdict.notDefined actividad ∧
    evaluar_actividad_con_analytics analytics_result actividad ≠
      Verdict.insufficient := by
  unfold evaluar_actividad_con_analytics
  rw [h]
  exact ⟨rfl, by simp⟩

theorem C10_witness :
    evaluar_actividad_con_analytics none "Esqui" = Verdict.notDefined "Esqui" ∧
    evaluar_actividad_con_analytics none "Esqui" ≠ Verdict.insufficient :=
  C10_undefined_activity_precedence none "Esqui" (by decide)

/-- C6: classify_wind_speed maps exactly 5.0 to the moderate class and
4.999 to the light-breeze class, and its five bands are lower-inclusive
and upper-exclusive, the final band unbounded. -/
theorem C6_wind_band_boundaries :
    classify_wind_speed 5 = "Viento moderado" ∧
    classify_wind_speed (4999/1000) = "Brisa ligera" ∧
    ∀ s : ℚ,
      ((classify_wind_speed s = "Calma") ↔ s < 2) ∧
      ((classify_wind_speed s = "Brisa ligera") ↔ (2 ≤ s ∧ s < 5)) ∧
      ((classify_wind_speed s = "Viento moderado") ↔ (5 ≤ s ∧ s < 10)) ∧
      ((classify_wind_speed s = "Viento fuerte") ↔ (10 ≤ s ∧ s < 15)) ∧
      ((classify_wind_speed s = "Viento muy fuerte") ↔ 15 ≤ s) := by
  refine ⟨by with_unfolding_all decide, by with_unfolding_all decide,
    fun s => ⟨?_, ?_, ?_, ?_, ?_⟩⟩ <;>
  · unfold classify_wind_speed
    split_ifs <;> simp <;>
      first
      | linarith
      | (constructor <;> linarith)
      | (intro hA; linarith)

/-- C8: When both temperature sequences are non-empty, the analyzer
succeeds, and a side whose sequence has fewer than two samples reports a
standard deviation of exactly 0 (the stdev computation is not
entered). -/
theorem C8_stddev_zero_on_small_sample (sqrtf : ℚ → ℚ) (mins maxs : List ℚ)
    (hmin : mins ≠ []) (hmax : maxs ≠ []) :
    ∃ t, analyze_temperature sqrtf mins maxs = some t ∧
      (mins.length < 2 → t.min.std_dev = 0) ∧
      (maxs.length < 2 → t.max.std_dev = 0) := by
  obtain ⟨x, xs, rfl⟩ := List.exists_cons_of_ne_nil hmin
  obtain ⟨y, ys, rfl⟩ := List.exists_cons_of_ne_nil hmax
  refine ⟨_, rfl, fun hlen => ?_, fun hlen => ?_⟩ <;>
  · show stdDevField sqrtf _ = 0
    unfold stdDevField
    rw [if_neg (by omega)]

theorem C8_witness :
    ∃ t, analyze_temperature sqrt0 [5] [10] = some t ∧
      t.min.std_dev = 0 ∧ t.max.std_dev = 0 := by
  obtain ⟨t, ht, h1, h2⟩ :=
    C8_stddev_zero_on_small_sample sqrt0 [5] [10] (by decide) (by decide)
  exact ⟨t, ht, h1 (by decide), h2 (by decide)⟩

/-- C3: For every non-empty raw sample list, the aggregate analyzer
succeeds, and each metric summary is its own insufficient-data marker
exactly when that metric's extracted sample sequence is empty — so a
metric with an empty sequence degrades alone while every sibling with a
non-empty sequence is fully computed. -/
theorem C3_metrics_fail_independently (sqrtf : ℚ → ℚ) (results : List YearData)
    (h : results ≠ []) :
    ∃ a, analyze_weather_data sqrtf results = some a ∧
      (a.temperature = none ↔
        (collectChannel YearData.t2m_min results = [] ∨
         collectChannel YearData.t2m_max results = [])) ∧
      (a.precipitation = none ↔ collectChannel YearData.prectotcorr results = []) ∧
      (a.wind = none ↔ collectChannel YearData.ws2m results = []) ∧
      (a.clouds = none ↔ collectChannel YearData.cloud_amt results = []) ∧
      (a.uv = none ↔ collectChannel YearData.allsky_uv results = []) := by
  obtain ⟨y, ys, rfl⟩ := List.exists_cons_of_ne_nil h
  exact ⟨_, rfl, analyze_temperature_eq_none_iff sqrtf _ _,
    analyze_precipitation_eq_none_iff _, analyze_wind_eq_none_iff _,
    analyze_clouds_eq_none_iff _, analyze_uv_eq_none_iff _⟩

theorem C3_witness :
    ∃ a, analyze_weather_data sqrt0 [exYd3] = some a ∧
      a.wind = none ∧ a.temperature ≠ none ∧ a.precipitation ≠ none ∧
      a.clouds ≠ none ∧ a.uv ≠ none := by
  obtain ⟨a, ha, ht, hp, hw, hc, hu⟩ :=
    C3_metrics_fail_independently sqrt0 [exYd3] (by with_unfolding_all decide)
  exact ⟨a, ha, hw.mpr (by with_unfolding_all decide),
    fun hn => absurd (ht.mp hn) (by with_unfolding_all decide),
    fun hn => absurd (hp.mp hn) (by with_unfolding_all decide),
    fun hn => absurd (hc.mp hn) (by with_unfolding_all decide),
    fun hn => absurd (hu.mp hn) (by with_unfolding_all decide)⟩

/-- C4: For every non-empty precipitation sample sequence, the reported
rain probability equals round(100 x rainy_count / total_count, 1) where
rainy_count counts the samples strictly above 0.1 mm; with 10 samples of
which exactly 3 exceed 0.1 mm it is exactly 30. -/
theorem C4_rain_probability (values : List ℚ) (h : values ≠ []) :
    ∃ p, analyze_precipitation values = some p ∧
      p.probability_of_rain =
        round1 (100 * ((values.countP fun v => decide ((0.1 : ℚ) < v) : ℕ) : ℚ) /
          (values.length : ℚ)) ∧
      (values.length = 10 →
        (values.countP fun v => decide ((0.1 : ℚ) < v)) = 3 →
        p.probability_of_rain = 30) := by
  obtain ⟨x, xs, rfl⟩ := List.exists_cons_of_ne_nil h
  refine ⟨_, rfl, ?_, ?_⟩
  · show (if 0 < (x :: xs).length then
        round1 ((((((x :: xs).filter fun v => decide ((0.1 : ℚ) < v)).length : ℕ) : ℚ) /
          ((x :: xs).length : ℚ)) * 100) else 0) = _
    rw [if_pos (by simp), ← List.countP_eq_length_filter]
    congr 1
    ring
  · intro h10 h3
    show (if 0 < (x :: xs).length then
        round1 ((((((x :: xs).filter fun v => decide ((0.1 : ℚ) < v)).length : ℕ) : ℚ) /
          ((x :: xs).length : ℚ)) * 100) else 0) = 30
    rw [if_pos (by simp), ← List.countP_eq_length_filter, h3, h10]
    have : ((3 : ℕ) : ℚ) / ((10 : ℕ) : ℚ) * 100 = 30 := by norm_num
    rw [this]
    with_unfolding_all decide

theorem C4_witness :
    ∃ p, analyze_precipitation [1, 2, 3, 0, 0, 0, 0, 0, 1/20, 1/10] = some p ∧
      p.probability_of_rain = 30 := by
  obtain ⟨p, hp, _, h30⟩ :=
    C4_rain_probability [1, 2, 3, 0, 0, 0, 0, 0, 1/20, 1/10]
      (by with_unfolding_all decide)
  exact ⟨p, hp, h30 (by with_unfolding_all decide) (by with_unfolding_all decide)⟩

theorem C7_counterexample :
    classify_uv_risk 9 ≠ classify_uv_risk 12 ∧
    get_uv_recommendation 9 = get_uv_recommendation 12 ∧
    (analyze_uv [9]).map UvStats.max_risk_level ≠
      (analyze_uv [12]).map UvStats.max_risk_level ∧
    (analyze_uv [9]).map UvStats.recommendation =
      (analyze_uv [12]).map UvStats.recommendation := by
  with_unfolding_all decide

/-- C7 (amended): get_uv_recommendation is keyed off the maximum UV
value but has only four message tiers, merging the classifier's very
high and extreme tiers: two max-UV values in different classifier tiers
receive the same recommendation exactly when both are at least 8. -/
theorem C7_uv_recommendation_tiers (u v : ℚ)
    (h : classify_uv_risk u ≠ classify_uv_risk v) :
    (get_uv_recommendation u = get_uv_recommendation v ↔ (8 ≤ u ∧ 8 ≤ v)) := by
  unfold classify_uv_risk at h
  unfold get_uv_recommendation
  split_ifs at h ⊢ <;> simp_all <;>
    first
    | linarith
    | (constructor <;> linarith)
    | (intro hA; linarith)

theorem C7_witness :
    get_uv_recommendation 3 = get_uv_recommendation 0 ↔
      (8 ≤ (3 : ℚ) ∧ 8 ≤ (0 : ℚ)) :=
  C7_uv_recommendation_tiers 3 0 (by with_unfolding_all decide)

/-- Rounding the two algebraically equal percentage forms agrees. -/
lemma round1_comm_form (c len : ℚ) :
    round1 (c / len * 100) = round1 (100 * c / len) := by
  congr 1
  ring

/-- C5: The intensity breakdown is computed over the rainy-day
subsequence only; with no rainy days it is the empty map; otherwise the
four bucket counts sum to the rainy-day count, each percentage is
round(100 x count / rainy_count, 1), and the unrounded percentages sum
to 100. -/
theorem C5_intensity_over_rainy_days (values : List ℚ) :
    (∀ p, analyze_precipitation values = some p →
      p.intensity_distribution =
        classify_precipitation_intensity
          (values.filter fun v => decide ((0.1 : ℚ) < v))) ∧
    ((values.filter fun v => decide ((0.1 : ℚ) < v)) = [] →
      classify_precipitation_intensity
        (values.filter fun v => decide ((0.1 : ℚ) < v)) = none) ∧
    ((values.filter fun v => decide ((0.1 : ℚ) < v)) ≠ [] →
      ∃ d, classify_precipitation_intensity
          (values.filter fun v => decide ((0.1 : ℚ) < v)) = some d ∧
        d.drizzle.count + d.light.count + d.moderate.count + d.heavy.count =
          (values.filter fun v => decide ((0.1 : ℚ) < v)).length ∧
        d.drizzle.percentage = round1 (100 * (d.drizzle.count : ℚ) /
          ((values.filter fun v => decide ((0.1 : ℚ) < v)).length : ℚ)) ∧
        d.light.percentage = round1 (100 * (d.light.count : ℚ) /
          ((values.filter fun v => decide ((0.1 : ℚ) < v)).length : ℚ)) ∧
        d.moderate.percentage = round1 (100 * (d.moderate.count : ℚ) /
          ((values.filter fun v => decide ((0.1 : ℚ) < v)).length : ℚ)) ∧
        d.heavy.percentage = round1 (100 * (d.heavy.count : ℚ) /
          ((values.filter fun v => decide ((0.1 : ℚ) < v)).length : ℚ)) ∧
        ((d.drizzle.count : ℚ) + (d.light.count : ℚ) +
            (d.moderate.count : ℚ) + (d.heavy.count : ℚ)) /
          ((values.filter fun v => decide ((0.1 : ℚ) < v)).length : ℚ) * 100
          = 100) := by
  refine ⟨?_, ?_, ?_⟩
  · intro p hp
    cases values with
    | nil => simp [analyze_precipitation] at hp
    | cons x xs =>
      obtain rfl := Option.some.inj hp
      rfl
  · intro hnil
    rw [hnil]
    rfl
  · intro hne
    obtain ⟨x, xs, hx⟩ := List.exists_cons_of_ne_nil hne
    have hall : ∀ v ∈ x :: xs, (0.1 : ℚ) < v := by
      intro v hv
      have hvf : v ∈ values.filter fun v => decide ((0.1 : ℚ) < v) := hx ▸ hv
      simpa using (List.mem_filter.mp hvf).2
    rw [hx]
    refine ⟨_, rfl, ?_, ?_, ?_, ?_, ?_, ?_⟩
    · exact countP_partition _ hall
    · exact round1_comm_form _ _
    · exact round1_comm_form _ _
    · exact round1_comm_form _ _
    · exact round1_comm_form _ _
    · have hsum := countP_partition (x :: xs) hall
      have hlen : (((x :: xs).length : ℕ) : ℚ) ≠ 0 :=
        Nat.cast_ne_zero.mpr (by simp)
      have hq : ((((x :: xs).countP fun v => decide ((0.1 : ℚ) < v ∧ v < 2) : ℕ) : ℚ) +
            (((x :: xs).countP fun v => decide ((2 : ℚ) ≤ v ∧ v < 10) : ℕ) : ℚ) +
            (((x :: xs).countP fun v => decide ((10 : ℚ) ≤ v ∧ v < 30) : ℕ) : ℚ) +
            (((x :: xs).countP fun v => decide ((30 : ℚ) ≤ v) : ℕ) : ℚ)) =
          (((x :: xs).length : ℕ) : ℚ) := by
        exact_mod_cast hsum
      show ((((x :: xs).countP fun v => decide ((0.1 : ℚ) < v ∧ v < 2) : ℕ) : ℚ) +
            (((x :: xs).countP fun v => decide ((2 : ℚ) ≤ v ∧ v < 10) : ℕ) : ℚ) +
            (((x :: xs).countP fun v => decide ((10 : ℚ) ≤ v ∧ v < 30) : ℕ) : ℚ) +
            (((x :: xs).countP fun v => decide ((30 : ℚ) ≤ v) : ℕ) : ℚ)) /
          (((x :: xs).length : ℕ) : ℚ) * 100 = 100
      rw [hq, div_self hlen, one_mul]

theorem C5_witness :
    ∃ d, classify_precipitation_intensity
        (([1/20, 1, 5, 20, 40] : List ℚ).filter fun v => decide ((0.1 : ℚ) < v)) =
        some d ∧
      d.drizzle.count + d.light.count + d.moderate.count + d.heavy.count =
        (([1/20, 1, 5, 20, 40] : List ℚ).filter fun v => decide ((0.1 : ℚ) < v)).length ∧
      d.drizzle.percentage = round1 (100 * (d.drizzle.count : ℚ) /
        ((([1/20, 1, 5, 20, 40] : List ℚ).filter fun v => decide ((0.1 : ℚ) < v)).length : ℚ)) ∧
      d.light.percentage = round1 (100 * (d.light.count : ℚ) /
        ((([1/20, 1, 5, 20, 40] : List ℚ).filter fun v => decide ((0.1 : ℚ) < v)).length : ℚ)) ∧
      d.moderate.percentage = round1 (100 * (d.moderate.count : ℚ) /
        ((([1/20, 1, 5, 20, 40] : List ℚ).filter fun v => decide ((0.1 : ℚ) < v)).length : ℚ)) ∧
      d.heavy.percentage = round1 (100 * (d.heavy.count : ℚ) /
        ((([1/20, 1, 5, 20, 40] : List ℚ).filter fun v => decide ((0.1 : ℚ) < v)).length : ℚ)) ∧
      ((d.drizzle.count : ℚ) + (d.light.count : ℚ) +
          (d.moderate.count : ℚ) + (d.heavy.count : ℚ)) /
        ((([1/20, 1, 5, 20, 40] : List ℚ).filter fun v => decide ((0.1 : ℚ) < v)).length : ℚ) * 100
        = 100 :=
  (C5_intensity_over_rainy_days [1/20, 1, 5, 20, 40]).2.2
    (by with_unfolding_all decide)

theorem C9_counterexample :
    ((analyze_weather_data sqrt0 [exYd9]).bind fun a =>
        a.temperature.map fun t => (t.min.average, t.max.average)) =
      some (101/10, 102/10) ∧
    (extraer_datos_desde_analytics (analyze_weather_data sqrt0 [exYd9])).map
        Datos.temperatura = some (102/10) ∧
    ((102 : ℚ)/10 ≠ (101/10 + 102/10) / 2) := by
  with_unfolding_all decide

/-- C9 (amended): the recommendation engine derives its temperature
scalar as round((mean-min + mean-max)/2, 1), the rounded midpoint of the
analytics record's temperature averages; for averages 10.0 and 20.0 the
derived scalar is exactly 15.0. -/
theorem C9_temperature_midpoint (a : Analytics) (t : TempStats)
    (h : a.temperature = some t) :
    ∃ d, extraer_datos_desde_analytics (some a) = some d ∧
      d.temperatura = round1 ((t.min.average + t.max.average) / 2) ∧
      (t.min.average = 10 → t.max.average = 20 → d.temperatura = 15) := by
  refine ⟨_, rfl, ?_, ?_⟩
  · simp only [h]
  · intro h1 h2
    simp only [h, h1, h2]
    with_unfolding_all decide

theorem C9_witness :
    ∃ d, extraer_datos_desde_analytics (some exA9w) = some d ∧
      d.temperatura = round1 ((exT9w.1.average + exT9w.2.average) / 2) ∧
      d.temperatura = 15 := by
  obtain ⟨d, hd, hmid, h15⟩ :=
    C9_temperature_midpoint exA9w ⟨exT9w.1, exT9w.2, (10, 20), (10, 20)⟩ rfl
  exact ⟨d, hd, hmid, h15 rfl rfl⟩

theorem C1_counterexample :
    (analyze_weather_data sqrt0 [exYd1]).map Analytics.temperature = some none ∧
    (analyze_weather_data sqrt0 [exYd1]).map
        (fun a => a.wind.isSome && a.precipitation.isSome &&
          a.clouds.isSome && a.uv.isSome) = some true ∧
    evaluar_actividad_con_analytics (analyze_weather_data sqrt0 [exYd1]) "Playa" =
      Verdict.notRecommended "Playa" [⟨"temperatura", 0, Dir.low⟩] := by
  with_unfolding_all decide

/-- C1 (amended): an unavailable derived scalar is not skipped: for
every decision dimension whose corresponding metric summary is the
insufficient-data marker, the extraction step substitutes 0, so the
evaluation does not fail but it does record a too-low violation for
that dimension whenever the activity's lower bound for it is positive
(the skip branch is unreachable because the derived dict always carries
all five dimensions). -/
theorem C1_default_zero_violation (a : Analytics) (act : String)
    (reglas : List (String × ℚ × ℚ)) (p : String) (mn mx : ℚ)
    (hmissing : (p = "temperatura" ∧ a.temperature = none) ∨
      (p = "viento" ∧ a.wind = none) ∨
      (p = "uv" ∧ a.uv = none) ∨
      (p = "precipitacion_probabilidad" ∧ a.precipitation = none) ∨
      (p = "nubes" ∧ a.clouds = none))
    (hact : rangos.lookup act = some reglas)
    (hmem : (p, mn, mx) ∈ reglas) (hmn : 0 < mn) :
    ∃ vs, evaluar_actividad_con_analytics (some a) act =
        Verdict.notRecommended act vs ∧
      Violation.mk p 0 Dir.low ∈ vs := by
  obtain ⟨d, hd, hget⟩ : ∃ d, extraer_datos_desde_analytics (some a) = some d ∧
      datosGet d p = some 0 := by
    refine ⟨_, rfl, ?_⟩
    rcases hmissing with ⟨rfl, h⟩ | ⟨rfl, h⟩ | ⟨rfl, h⟩ | ⟨rfl, h⟩ | ⟨rfl, h⟩ <;>
      simp [datosGet, h] <;> with_unfolding_all decide
  have hviol : Violation.mk p 0 Dir.low ∈ checkReglas d reglas := by
    apply List.mem_filterMap.mpr
    refine ⟨(p, mn, mx), hmem, ?_⟩
    simp [checkReglas, hget, hmn]
  refine ⟨checkReglas d reglas, ?_, hviol⟩
  unfold evaluar_actividad_con_analytics
  rw [hact]
  dsimp only
  rw [hd]
  dsimp only
  have hne : ¬((checkReglas d reglas).isEmpty = true) := by
    simp only [List.isEmpty_iff]
    exact List.ne_nil_of_mem hviol
  rw [if_neg hne]

theorem C1_witness :
    (∃ vs, evaluar_actividad_con_analytics (some exA1) "Playa" =
        Verdict.notRecommended "Playa" vs ∧
      Violation.mk "temperatura" 0 Dir.low ∈ vs) ∧
    (∃ vs, evaluar_actividad_con_analytics (some exA1) "Playa" =
        Verdict.notRecommended "Playa" vs ∧
      Violation.mk "uv" 0 Dir.low ∈ vs) ∧
    (∃ vs, evaluar_actividad_con_analytics (some exA1) "Picnic" =
        Verdict.notRecommended "Picnic" vs ∧
      Violation.mk "nubes" 0 Dir.low ∈ vs) :=
  ⟨C1_default_zero_violation exA1 "Playa"
      [("temperatura", 20, 32), ("viento", 0, 6), ("uv", 3, 8),
       ("precipitacion_probabilidad", 0, 10), ("nubes", 10, 50)]
      "temperatura" 20 32 (Or.inl ⟨rfl, rfl⟩)
      (by with_unfolding_all decide) (by with_unfolding_all decide)
      (by with_unfolding_all decide),
   C1_default_zero_violation exA1 "Playa"
      [("temperatura", 20, 32), ("viento", 0, 6), ("uv", 3, 8),
       ("precipitacion_probabilidad", 0, 10), ("nubes", 10, 50)]
      "uv" 3 8 (Or.inr (Or.inr (Or.inl ⟨rfl, rfl⟩)))
      (by with_unfolding_all decide) (by with_unfolding_all decide)
      (by with_unfolding_all decide),
   C1_default_zero_violation exA1 "Picnic"
      [("temperatura", 15, 28), ("viento", 0, 4), ("uv", 0, 6),
       ("precipitacion_probabilidad", 0, 10), ("nubes", 10, 70)]
      "nubes" 10 70 (Or.inr (Or.inr (Or.inr (Or.inr ⟨rfl, rfl⟩))))
      (by with_unfolding_all decide) (by with_unfolding_all decide)
      (by with_unfolding_all decide)⟩

end ActiveSky
